import Mathlib

/-!
Verification of the AiiDA `QueryBuilderBase` graph-query compiler
(`aiida/backends/querybuild/querybuilder_base.py`).

The Python class is shallowly embedded: the mutable builder object becomes a
record `QB` threaded through pure functions, Python exceptions become an
`Except QBErr` result, Python dictionaries become insertion-ordered
association lists, and SQLAlchemy aliases become vertex indices.  Every
definition below is translated line by line from the source file; the
backend-abstract parts that the claims do not touch (filter lowering via
`analyze_filter_spec`, the ORDER BY clause and the database session) are not
modelled, all parse-time and build-time control flow is.
-/

/-! ## Python string helpers

`str.strip(".")`, `str.split(".")` and `".".join` as used by the source. -/

/-- Python `s.strip(".")`: removes leading and trailing dot characters. -/
def pyStrip (s : String) : String :=
  String.mk (((s.toList.dropWhile (fun c => c = '.')).reverse.dropWhile
      (fun c => c = '.')).reverse)

/-- Helper for `pySplit`: splits a character list at every dot. -/
def splitAux : List Char → List Char → List String
  | [], acc => [String.mk acc.reverse]
  | c :: cs, acc =>
    if c = '.' then String.mk acc.reverse :: splitAux cs []
    else splitAux cs (c :: acc)

/-- Python `s.split(".")`: always returns a non-empty list; `"".split(".") = [""]`. -/
def pySplit (s : String) : List String :=
  splitAux s.toList []

/-- Python `".".join(parts)`. -/
def pyJoin : List String → String
  | [] => ""
  | [s] => s
  | s :: t :: rest => s ++ "." ++ pyJoin (t :: rest)

/-- The `_plugin_type_spec` computed at the filter-injection site:
`".".join(type.strip(".").split(".")[:-1])` — the discriminator stripped of
dots with its last dot-separated segment removed. -/
def typeSpec (t : String) : String :=
  pyJoin ((pySplit (pyStrip t)).dropLast)

/-- `cls._plugin_type_string.strip(".").split(".")[-1]` — the default label. -/
def lastSeg (pts : String) : String :=
  (pySplit (pyStrip pts)).getLastD ""

/-! ## Association lists with Python `dict` semantics -/

/-- First-match lookup (Python `d[k]` / `d.get(k)`). -/
def alookup {σ α : Type} [DecidableEq σ] : List (σ × α) → σ → Option α
  | [], _ => none
  | (k', v') :: rest, k => if k' = k then some v' else alookup rest k

/-- Python `d[k] = v`: replace in place if the key exists, else append. -/
def aupdate1 {σ α : Type} [DecidableEq σ] : List (σ × α) → σ → α → List (σ × α)
  | [], k, v => [(k, v)]
  | (k', v') :: rest, k, v =>
    if k' = k then (k, v) :: rest else (k', v') :: aupdate1 rest k v

/-- Python `d.update(d2)`: `d[k] = v` for each entry of `d2` in order. -/
def aupdateAll {σ α : Type} [DecidableEq σ] (d d2 : List (σ × α)) : List (σ × α) :=
  d2.foldl (fun acc p => aupdate1 acc p.1 p.2) d

/-- Python `l[-1]` as an `Option` (`label_list[-1]`). -/
def pyLast {α : Type} : List α → Option α
  | [] => none
  | [a] => some a
  | _ :: b :: t => pyLast (b :: t)

/-- `labels_location_dict[s]`: the dict comprehension maps each label to its
index, later occurrences overwriting earlier ones, so lookup yields the last
index of `s`. -/
def lastIdx (l : List String) (s : String) : Option Nat :=
  ((l.enum.filter (fun p => p.2 = s)).getLast?).map (fun p => p.1)

/-- Python list indexing `l[i]` with negative-index wrap-around; out of range
raises `IndexError`. -/
def pyIndexOk (len : Nat) (i : Int) : Bool :=
  if 0 ≤ i then i < (len : Int) else 0 ≤ i + (len : Int)

-- Equality on `Except` results is decidable, so concrete runs of the
-- embedded functions can be checked by `decide`.
deriving instance DecidableEq for Except

/-! ## Data model -/

/-- The error channel: `InputValidationError`, a failing `assert`, or any
other raised exception (`Exception`, `KeyError`, `TypeError`, ...). -/
inductive QBErr : Type
  | inputValidation (msg : String)
  | assertViolation (msg : String)
  | exc (msg : String)
deriving DecidableEq, Repr

/-- Which Python base class an ORM class derives from (`issubclass` checks). -/
inductive ClsKind : Type
  | node
  | group
  | other
deriving DecidableEq, Repr

/-- An ORM class passed to the builder: its identity, its base class, and its
`_plugin_type_string` discriminator. -/
structure PyClass where
  name : String
  kind : ClsKind
  pts : String
deriving DecidableEq, Repr

/-- A value attached to an edge keyword: an integer index, a label string or
an ORM class. -/
inductive JoinVal : Type
  | int (n : Int)
  | str (s : String)
  | cls (c : PyClass)
deriving DecidableEq, Repr

/-- A value of a per-column filter dictionary: the implicitly injected
`{"like": pattern}` operator map, or an opaque user-supplied payload. -/
inductive FilterVal : Type
  | like (pat : String)
  | user (tag : Nat)
deriving DecidableEq, Repr

/-- A per-label filter dictionary (`self.filters[label]`). -/
abbrev FilterDict : Type := List (String × FilterVal)

/-- A stored projection value: Python keeps either a list of specs or a bare
string (`self.projections.update({label: star})` stores a bare star string). -/
inductive PyProjVal : Type
  | list (l : List String)
  | str (s : String)
deriving DecidableEq, Repr

/-- One keyword-argument set for `_add_to_path`. -/
structure PathSpec where
  cls : Option PyClass := none
  type : Option String := none
  label : Option String := none
  autolabel : Bool := false
  filters : Option FilterDict := none
  project : Option PyProjVal := none
  edges : List (String × JoinVal) := []
deriving DecidableEq, Repr

/-- An entry appended to `self.path`: `{"type": ..., "label": ..., kw: val}`. -/
structure PathEntry where
  type : String
  label : String
  joinKw : String
  joinVal : JoinVal
deriving DecidableEq, Repr

/-- Python `None`, `False`, or an integer — the values `self.limit` takes. -/
inductive LimitV : Type
  | noneV
  | intV (n : Int)
  | boolV (b : Bool)
deriving DecidableEq, Repr

/-- The builder state after `__init__` (aliases are identified with path
indices, so `alias_list` needs no separate field). -/
structure QB where
  path : List PathEntry := []
  label_list : List String := []
  filters : List (String × FilterDict) := []
  projections : List (String × PyProjVal) := []
  cls_to_label_map : List (PyClass × String) := []
  limit : LimitV := .boolV false
  order_by : List (String × List String) := []
deriving DecidableEq, Repr

/-! ## `_add_to_path` -/

/-- The `if cls:` branch: derive `type` (and the default label) from the
class, or reject non-Node non-Group classes. -/
def clsToType (c : PyClass) (label : Option String) :
    Except QBErr (String × Option String) :=
  match c.kind with
  | .node =>
    let t := if c.pts ≠ "" then c.pts else "node"
    match label with
    | none => .ok (t, some (lastSeg c.pts))
    | some l => .ok (t, some l)
  | .group => .ok ("group", label)
  | .other => .error (.inputValidation "I do not know what to do with cls")

/-- `type`/default-label resolution entry point for one path spec. -/
def clsTypeOf (sp : PathSpec) : Except QBErr (String × Option String) :=
  match sp.cls with
  | some c => clsToType c sp.label
  | none => .ok (sp.type.getD "", sp.label)

/-- The `autolabel` search: smallest `i ≥ 1` with `"<type>_<i>"` unused.  The
fuel `llist.length + 1` always suffices (there are more candidates than used
labels); on exhaustion the last candidate is returned unchecked. -/
def autoFind (llist : List String) (type0 : String) : String :=
  go (llist.length + 1) 1
where
  go : Nat → Nat → String
    | 0, i => type0 ++ "_" ++ toString i
    | fuel + 1, i =>
      let cand := type0 ++ "_" ++ toString i
      if cand ∈ llist then go fuel (i + 1) else cand

/-- Label choice when no truthy explicit label is given: `autolabel` search,
or `label := type` with a uniqueness check. -/
def chooseLabelDefault (llist : List String) (type0 : String) (auto : Bool) :
    Except QBErr String :=
  if auto then .ok (autoFind llist type0)
  else if type0 ∈ llist then
    .error (.inputValidation "Label is not unique, choose different label")
  else .ok type0

/-- `if label: ... elif autolabel: ... else: ...` — note that an explicit
label is used verbatim with no uniqueness check, and that the empty string is
falsy. -/
def chooseLabel (llist : List String) (type0 : String) (lbl : Option String)
    (auto : Bool) : Except QBErr String :=
  match lbl with
  | some l => if l = "" then chooseLabelDefault llist type0 auto else .ok l
  | none => chooseLabelDefault llist type0 auto

/-- `if cls and cls not in self.cls_to_label_map: map[cls] = label` — the
first binding of a class is kept, later bindings are silently dropped. -/
def newClsMap (m : List (PyClass × String)) (sp : PathSpec) (label : String) :
    List (PyClass × String) :=
  match sp.cls with
  | some c => if (alookup m c).isSome then m else m ++ [(c, label)]
  | none => m

/-- `self.filters[label] = {}` followed by `.update(filters)`. -/
def initialFd (sp : PathSpec) : FilterDict :=
  match sp.filters with
  | some f => aupdateAll [] f
  | none => []

/-- `self.projections[label] = []` followed by appending the (listified)
`project` value. -/
def initialProj (sp : PathSpec) : List String :=
  match sp.project with
  | none => []
  | some (.list l) => l
  | some (.str s) => [s]

/-- The implicit type-discriminator filter injection: for `type` not in
`["computer", "group"]`, compute `".".join(type.strip(".").split(".")[:-1])`;
if non-empty inject `{"type": {"like": spec + "%"}}`, else accept only the
bare `"node"` and reject everything else. -/
def injectTypeFilter (fd : FilterDict) (t : String) : Except QBErr FilterDict :=
  if t = "computer" ∨ t = "group" then .ok fd
  else
    let p := typeSpec t
    if p ≠ "" then .ok (aupdate1 fd "type" (.like (p ++ "%")))
    else if t = "node" then .ok fd
    else .error (.inputValidation
      "Giving me type does not provide me with a filter on type")

/-- The keys of `_get_function_map()`. -/
def validJoinKeys : List String :=
  ["input_of", "output_of", "slave_of", "master_of", "ancestor_of",
   "descendant_of", "direction", "group_of", "member_of", "used_by"]

/-- The `for k, v in kwargs.items()` loop of `_add_to_path`: at most one edge
keyword; its value must occur in `label_list` or be a key of
`cls_to_label_map`, so integers are always rejected.  If no keyword is given
the edge defaults to `("direction", 1)`. -/
def resolveEdges (llist : List String) (clsMap : List (PyClass × String)) :
    List (String × JoinVal) → Option (String × JoinVal) →
    Except QBErr (String × JoinVal)
  | [], none => .ok ("direction", .int 1)
  | [], some p => .ok p
  | (k, v) :: rest, acc =>
    if k ∉ validJoinKeys then
      .error (.inputValidation "not a valid keyword for joining specification")
    else if acc.isSome then
      .error (.inputValidation "You already specified joining specification")
    else
      match v with
      | .str s =>
        if s ∈ llist then resolveEdges llist clsMap rest (some (k, .str s))
        else .error (.inputValidation
          "You told me to join, but it is not among my labels")
      | .cls c =>
        match alookup clsMap c with
        | some l => resolveEdges llist clsMap rest (some (k, .str l))
        | none => .error (.inputValidation
          "You told me to join, but it is not among my labels")
      | .int _ => .error (.inputValidation
        "You told me to join, but it is not among my labels")

/-- `QueryBuilderBase._add_to_path`, with the source's statement order:
cls/type checks, label choice, `label_list` append, class→label map update,
the two `assert label not in ...` checks, user filter merge, projection
initialisation, type-filter injection, edge-keyword resolution, and finally
the append to `self.path`. -/
def addToPath (qb : QB) (sp : PathSpec) : Except QBErr QB :=
  if sp.cls.isSome && (sp.type.getD "" != "") then
    .error (.inputValidation "You cannot specify both a class and a type")
  else if !sp.cls.isSome && (sp.type.getD "" == "") then
    .error (.inputValidation "You need to specify either a class or a type")
  else
    match clsTypeOf sp with
    | .error e => .error e
    | .ok (type0, label0) =>
      match chooseLabel qb.label_list type0 label0 sp.autolabel with
      | .error e => .error e
      | .ok label =>
        match alookup qb.filters label with
        | some _ => .error (.assertViolation "Why is label already a key in filters?")
        | none =>
          match alookup qb.projections label with
          | some _ => .error (.assertViolation
              "Why is label already a key in the projections?")
          | none =>
            match injectTypeFilter (initialFd sp) type0 with
            | .error e => .error e
            | .ok fd2 =>
              match resolveEdges (qb.label_list ++ [label])
                  (newClsMap qb.cls_to_label_map sp label) sp.edges none with
              | .error e => .error e
              | .ok (kw, jv) =>
                .ok { path := qb.path ++ [⟨type0, label, kw, jv⟩],
                      label_list := qb.label_list ++ [label],
                      filters := qb.filters ++ [(label, fd2)],
                      projections := qb.projections ++ [(label, .list (initialProj sp))],
                      cls_to_label_map := newClsMap qb.cls_to_label_map sp label,
                      limit := qb.limit,
                      order_by := qb.order_by }

/-! ## `__init__`: parsing a full query-help -/

/-- One item of `queryhelp["path"]`: a spec dictionary, a bare type string
(the `TypeError`/`basestring` fallback), or a bare class (passed
positionally as `cls`). -/
inductive PathItem : Type
  | spec (s : PathSpec)
  | str (s : String)
  | cls (c : PyClass)
deriving DecidableEq, Repr

/-- A key of the top-level `project`/`filters` dictionaries: a label string
or an ORM class. -/
inductive QKey : Type
  | lbl (s : String)
  | cls (c : PyClass)
deriving DecidableEq, Repr

/-- The query-help document.  `limit := none` models an absent key (popped
with default `False`); `extra` models any unrecognised top-level keys. -/
structure QueryHelp where
  path : List PathItem := []
  project : List (QKey × PyProjVal) := []
  filters : List (QKey × FilterDict) := []
  limit : Option LimitV := none
  order_by : List (String × List String) := []
  extra : List String := []
deriving DecidableEq, Repr

/-- Dispatch of one path item into `_add_to_path`. -/
def pathItemAdd (qb : QB) : PathItem → Except QBErr QB
  | .spec s => addToPath qb s
  | .str s => addToPath qb { type := some s }
  | .cls c => addToPath qb { cls := some c }

/-- `QueryBuilderBase._add_projection`: assigns (does not merge) the
projection for a label or a class resolved through the class→label map. -/
def addProjection (qb : QB) (k : QKey) (v : PyProjVal) : Except QBErr QB :=
  match k with
  | .lbl s =>
    if s ∈ qb.label_list then
      .ok { qb with projections := aupdate1 qb.projections s v }
    else .error (.inputValidation
      "Cannot add projection specification to any known label")
  | .cls c =>
    match alookup qb.cls_to_label_map c with
    | some l => .ok { qb with projections := aupdate1 qb.projections l v }
    | none => .error (.inputValidation
      "Cannot add projection specification to any known label")

/-- `QueryBuilderBase._add_filter`: merges (`dict.update`) into the existing
per-label filter dictionary. -/
def addFilter (qb : QB) (k : QKey) (v : FilterDict) : Except QBErr QB :=
  match k with
  | .lbl s =>
    if s ∈ qb.label_list then
      match alookup qb.filters s with
      | some fd => .ok { qb with filters := aupdate1 qb.filters s (aupdateAll fd v) }
      | none => .error (.exc "KeyError")
    else .error (.inputValidation "Cannot add filter specification to any known label")
  | .cls c =>
    match alookup qb.cls_to_label_map c with
    | some l =>
      match alookup qb.filters l with
      | some fd => .ok { qb with filters := aupdate1 qb.filters l (aupdateAll fd v) }
      | none => .error (.exc "KeyError")
    | none => .error (.inputValidation "Cannot add filter specification to any known label")

/-- `QueryBuilderBase.__init__`: path vertices, then `project`, then
`filters`, then `limit` (default `False`) and `order_by`, then the check for
unrecognised top-level keys. -/
def qbInit (qh : QueryHelp) : Except QBErr QB :=
  match qh.path.foldlM pathItemAdd {} with
  | .error e => .error e
  | .ok qb1 =>
    match qh.project.foldlM (fun b p => addProjection b p.1 p.2) qb1 with
    | .error e => .error e
    | .ok qb2 =>
      match qh.filters.foldlM (fun b p => addFilter b p.1 p.2) qb2 with
      | .error e => .error e
      | .ok qb3 =>
        let qb4 := { qb3 with limit := qh.limit.getD (.boolV false),
                              order_by := qh.order_by }
        if qh.extra.isEmpty then .ok qb4
        else .error (.inputValidation "Received additional keywords")

/-- `QueryBuilderBase.get_dict()` turned back into a query-help: each stored
path entry `{"type": t, "label": l, kw: val}` becomes the keyword arguments
of a new `_add_to_path` call. -/
def getDictQH (qb : QB) : QueryHelp :=
  { path := qb.path.map (fun e =>
      .spec { type := some e.type, label := some e.label,
              edges := [(e.joinKw, e.joinVal)] }),
    project := qb.projections.map (fun p => (.lbl p.1, p.2)),
    filters := qb.filters.map (fun p => (.lbl p.1, p.2)),
    limit := some qb.limit,
    order_by := qb.order_by }

/-! ## `_build_query`: joins, projections, limit -/

/-- The join kinds of `_get_function_map()`. -/
inductive JoinKind : Type
  | inputOf
  | outputOf
  | slaveOf
  | masterOf
  | ancestorOf
  | descendantOf
  | groupOf
  | memberOf
  | usedBy
deriving DecidableEq, Repr

/-- `_get_function_map()` lookup (`"direction"` maps to `None`, handled
separately). -/
def kwToKind? : String → Option JoinKind
  | "input_of" => some .inputOf
  | "output_of" => some .outputOf
  | "slave_of" => some .slaveOf
  | "master_of" => some .masterOf
  | "ancestor_of" => some .ancestorOf
  | "descendant_of" => some .descendantOf
  | "group_of" => some .groupOf
  | "member_of" => some .memberOf
  | "used_by" => some .usedBy
  | _ => none

/-- A table reference in an emitted join predicate: a path-vertex alias or a
fresh alias of one of the edge tables. -/
inductive Tbl : Type
  | vertex (i : Nat)
  | link (j : Nat)
  | dbpath (j : Nat)
  | groupNodes (j : Nat)
deriving DecidableEq, Repr

/-- A column named in an emitted join predicate. -/
inductive Col : Type
  | id
  | input_id
  | output_id
  | parent_id
  | child_id
  | dbgroup_id
  | dbnode_id
  | dbcomputer_id
deriving DecidableEq, Repr

/-- One equality predicate of an emitted join, with the operand order of the
source (`left == right`). -/
structure JoinPred where
  left : Tbl × Col
  right : Tbl × Col
deriving DecidableEq, Repr

/-- Python `alias_list[val]` for an `int` `val` (negative wrap-around). -/
def pyIndex (len : Nat) (i : Int) : Except QBErr Nat :=
  if 0 ≤ i then
    if i < (len : Int) then .ok i.toNat else .error (.exc "IndexError")
  else
    if 0 ≤ i + (len : Int) then .ok (i + (len : Int)).toNat
    else .error (.exc "IndexError")

/-- `_get_connecting_node(querydict, index)`: resolve the target alias index
and join function.  A `"direction"` key (or an unrecognised keyword, whose
absence from the function map leaves `val = None` and defaults the direction
to 1) selects `_join_outputs` at `index - d` for `d > 0`, `_join_inputs` at
`index + d` for `d < 0`, and raises for `d == 0`; other keywords dispatch on
the stored value (int index or label). -/
def getConnectingNode (len : Nat) (llist : List String) (e : PathEntry)
    (index : Nat) : Except QBErr (Nat × JoinKind) :=
  if e.joinKw = "direction" then
    match e.joinVal with
    | .int d =>
      if d > 0 then (pyIndex len ((index : Int) - d)).map (fun a => (a, .outputOf))
      else if d < 0 then (pyIndex len ((index : Int) + d)).map (fun a => (a, .inputOf))
      else .error (.exc "Direction 0 is not valid")
    | _ => .error (.exc "TypeError")
  else
    match kwToKind? e.joinKw with
    | none => (pyIndex len ((index : Int) - 1)).map (fun a => (a, .outputOf))
    | some kind =>
      match e.joinVal with
      | .int n => (pyIndex len n).map (fun a => (a, kind))
      | .str s =>
        match lastIdx llist s with
        | some j => (pyIndex len (j : Int)).map (fun a => (a, kind))
        | none => .error (.exc "KeyError")
      | .cls _ => .error (.exc "Unrecognized connection specification")

/-- The `_join_*` family: the equality predicates each join function emits,
with `j` the fresh edge-table alias, `target` the `joined_entity` and `self`
the `entity_to_join`. -/
def applyJoin (j : Nat) (kind : JoinKind) (target self : Nat) :
    Except QBErr (List JoinPred) :=
  match kind with
  | .outputOf => .ok
      [⟨(.link j, .input_id), (.vertex target, .id)⟩,
       ⟨(.link j, .output_id), (.vertex self, .id)⟩]
  | .inputOf => .ok
      [⟨(.link j, .output_id), (.vertex target, .id)⟩,
       ⟨(.link j, .input_id), (.vertex self, .id)⟩]
  | .descendantOf => .ok
      [⟨(.dbpath j, .parent_id), (.vertex target, .id)⟩,
       ⟨(.dbpath j, .child_id), (.vertex self, .id)⟩]
  | .ancestorOf => .ok
      [⟨(.dbpath j, .child_id), (.vertex target, .id)⟩,
       ⟨(.dbpath j, .parent_id), (.vertex self, .id)⟩]
  | .memberOf => .ok
      [⟨(.groupNodes j, .dbgroup_id), (.vertex target, .id)⟩,
       ⟨(.vertex self, .id), (.groupNodes j, .dbnode_id)⟩]
  | .groupOf => .ok
      [⟨(.groupNodes j, .dbnode_id), (.vertex target, .id)⟩,
       ⟨(.vertex self, .id), (.groupNodes j, .dbgroup_id)⟩]
  | .usedBy => .ok
      [⟨(.vertex self, .id), (.vertex target, .dbcomputer_id)⟩]
  | .slaveOf => .error (.exc "Master - slave relationships are not implemented")
  | .masterOf => .error (.exc "Master - slave relationships are not implemented")

/-- One iteration of the join loop of `_build_query` for vertex `i ≥ 1`. -/
def joinStepAt (qb : QB) (i : Nat) : Except QBErr (List JoinPred) :=
  match qb.path[i]? with
  | none => .error (.exc "IndexError")
  | some e =>
    match getConnectingNode qb.path.length qb.label_list e i with
    | .error err => .error err
    | .ok (t, kind) => applyJoin i kind t i

/-- Python truthiness of a stored projection value (`[]` and `''` are falsy). -/
def projEmpty : PyProjVal → Bool
  | .list l => l.isEmpty
  | .str s => s = ""

/-- The listification `[items_to_project]` of a non-list projection value. -/
def projList : PyProjVal → List String
  | .list l => l
  | .str s => [s]

/-- The projection loop of `_build_query`: walk the path in order, skip
vertices with falsy projection values, and emit each vertex's (listified)
projection specs. -/
def emitProjections (projs : List (String × PyProjVal)) :
    List PathEntry → List (String × List String)
  | [] => []
  | v :: rest =>
    match alookup projs v.label with
    | none => emitProjections projs rest
    | some pv =>
      if projEmpty pv then emitProjections projs rest
      else (v.label, projList pv) :: emitProjections projs rest

/-- Python truthiness of `self.limit`. -/
def limTruthy : LimitV → Bool
  | .noneV => false
  | .intV n => n ≠ 0
  | .boolV b => b

/-- The observable shape of the built query handle: emitted join predicates
per non-initial vertex, projected specs per label in path order, and the
LIMIT clause.  (Filter lowering and ORDER BY are backend-abstract and not
modelled.) -/
structure BuiltQuery where
  joins : List (List JoinPred)
  projected : List (String × List String)
  limitClause : Option LimitV
deriving DecidableEq, Repr

/-- `QueryBuilderBase._build_query`: label-uniqueness check, the join loop,
the default `"*"` projection on the last label when no projection value is
truthy, and the LIMIT clause applied only when `self.limit` is truthy. -/
def buildQuery (qb : QB) : Except QBErr BuiltQuery :=
  if qb.label_list.Nodup then
    if qb.path.isEmpty then .error (.exc "IndexError")
    else
      match ((List.range qb.path.length).drop 1).mapM (joinStepAt qb) with
      | .error e => .error e
      | .ok joins =>
        if qb.projections.all (fun p => projEmpty p.2) then
          match pyLast qb.label_list with
          | none => .error (.exc "IndexError")
          | some lbl =>
            .ok { joins := joins,
                  projected := emitProjections
                    (aupdate1 qb.projections lbl (.str "*")) qb.path,
                  limitClause := if limTruthy qb.limit then some qb.limit else none }
        else
          .ok { joins := joins,
                projected := emitProjections qb.projections qb.path,
                limitClause := if limTruthy qb.limit then some qb.limit else none }
  else .error (.inputValidation "Labels are not unique")

/-! ## The cached query handle and the chaining operations -/

/-- A builder together with its memoised handle: `self.que` is set by
`_build_query` and checked by `get_query` via `hasattr`. -/
structure QBM where
  qb : QB
  que : Option BuiltQuery := none
deriving DecidableEq, Repr

/-- `QueryBuilderBase.get_query`: return the cached handle if present, else
build and cache it. -/
def getQuery (m : QBM) : Except QBErr (BuiltQuery × QBM) :=
  match m.que with
  | some q => .ok (q, m)
  | none =>
    match buildQuery m.qb with
    | .error e => .error e
    | .ok b => .ok (b, { m with que := some b })

/-- The default `cls` of the chaining operations, the base `AiidaNode` class
(empty `_plugin_type_string`). -/
def nodeBaseCls : PyClass := ⟨"Node", .node, ""⟩

/-- The common body of `inputs`/`outputs`/`children`/`parents`: append an
auto-labelled vertex joined to the previous last label.  Note that `self.que`
is left untouched. -/
def chainOp (kw : String) (m : QBM) (cls : PyClass := nodeBaseCls) :
    Except QBErr QBM :=
  match pyLast m.qb.label_list with
  | none => .error (.exc "IndexError")
  | some join_to =>
    match addToPath m.qb
        { cls := some cls, autolabel := true, edges := [(kw, .str join_to)] } with
    | .error e => .error e
    | .ok qb2 => .ok { m with qb := qb2 }

/-- `QueryBuilderBase.inputs`. -/
def inputsOp (m : QBM) (cls : PyClass := nodeBaseCls) : Except QBErr QBM :=
  chainOp "input_of" m cls

/-- `QueryBuilderBase.outputs`. -/
def outputsOp (m : QBM) (cls : PyClass := nodeBaseCls) : Except QBErr QBM :=
  chainOp "output_of" m cls

/-- `QueryBuilderBase.children`. -/
def childrenOp (m : QBM) (cls : PyClass := nodeBaseCls) : Except QBErr QBM :=
  chainOp "descendant_of" m cls

/-- `QueryBuilderBase.parents`. -/
def parentsOp (m : QBM) (cls : PyClass := nodeBaseCls) : Except QBErr QBM :=
  chainOp "ancestor_of" m cls

/-! ## Helper lemmas on the dictionary model -/

theorem alookup_mem {σ α : Type} [DecidableEq σ] {d : List (σ × α)} {k : σ}
    {v : α} (h : alookup d k = some v) : (k, v) ∈ d := by
  induction d with
  | nil => simp [alookup] at h
  | cons p rest ih =>
    obtain ⟨k', v'⟩ := p
    by_cases hk : k' = k
    · subst hk
      simp [alookup] at h
      simp [h]
    · simp [alookup, hk] at h
      exact List.mem_cons_of_mem _ (ih h)

theorem aupdate1_lookup_self {σ α : Type} [DecidableEq σ] (d : List (σ × α))
    (k : σ) (v : α) : alookup (aupdate1 d k v) k = some v := by
  induction d with
  | nil => simp [aupdate1, alookup]
  | cons p rest ih =>
    obtain ⟨k', v'⟩ := p
    by_cases hk : k' = k
    · subst hk
      simp [aupdate1, alookup]
    · simp [aupdate1, alookup, hk, ih]

theorem aupdate1_lookup_ne {σ α : Type} [DecidableEq σ] (d : List (σ × α))
    (k : σ) (v : α) (k' : σ) (h : k' ≠ k) :
    alookup (aupdate1 d k v) k' = alookup d k' := by
  induction d with
  | nil => simp [aupdate1, alookup, Ne.symm h]
  | cons p rest ih =>
    obtain ⟨k₀, v₀⟩ := p
    by_cases hk : k₀ = k
    · subst hk
      simp [aupdate1, alookup, Ne.symm h]
    · simp only [aupdate1, hk, if_false, alookup]
      by_cases hk' : k₀ = k'
      · simp [hk']
      · simp [hk', ih]

theorem alookup_append_left {σ α : Type} [DecidableEq σ] {d : List (σ × α)}
    {k : σ} {v : α} (d' : List (σ × α)) (h : alookup d k = some v) :
    alookup (d ++ d') k = some v := by
  induction d with
  | nil => simp [alookup] at h
  | cons p rest ih =>
    obtain ⟨k', v'⟩ := p
    by_cases hk : k' = k
    · subst hk
      simp [alookup] at h ⊢
      exact h
    · simp [alookup, hk] at h ⊢
      exact ih h

theorem alookup_append_right {σ α : Type} [DecidableEq σ] {d : List (σ × α)}
    {k : σ} (d' : List (σ × α)) (h : alookup d k = none) :
    alookup (d ++ d') k = alookup d' k := by
  induction d with
  | nil => simp
  | cons p rest ih =>
    obtain ⟨k', v'⟩ := p
    by_cases hk : k' = k
    · subst hk
      simp [alookup] at h
    · simp [alookup, hk] at h ⊢
      exact ih h

theorem pyLast_mem {α : Type} : ∀ {l : List α} {a : α}, pyLast l = some a → a ∈ l
  | [], a, h => by simp [pyLast] at h
  | [x], a, h => by
    simp [pyLast] at h
    simp [h]
  | x :: y :: t, a, h => by
    rw [show pyLast (x :: y :: t) = pyLast (y :: t) from rfl] at h
    exact List.mem_cons_of_mem _ (pyLast_mem h)

theorem pyLast_append_one {α : Type} (l : List α) (a : α) :
    pyLast (l ++ [a]) = some a := by
  induction l with
  | nil => rfl
  | cons x xs ih =>
    cases xs with
    | nil => rfl
    | cons y ys => exact ih

/-! ## Characterisation of a successful `_add_to_path` -/

theorem addToPath_ok {qb : QB} {sp : PathSpec} {qb' : QB}
    (h : addToPath qb sp = .ok qb') :
    ∃ type0 label0 label fd2 kw jv,
      clsTypeOf sp = .ok (type0, label0) ∧
      chooseLabel qb.label_list type0 label0 sp.autolabel = .ok label ∧
      alookup qb.filters label = none ∧
      alookup qb.projections label = none ∧
      injectTypeFilter (initialFd sp) type0 = .ok fd2 ∧
      resolveEdges (qb.label_list ++ [label])
        (newClsMap qb.cls_to_label_map sp label) sp.edges none = .ok (kw, jv) ∧
      qb' = { path := qb.path ++ [⟨type0, label, kw, jv⟩],
              label_list := qb.label_list ++ [label],
              filters := qb.filters ++ [(label, fd2)],
              projections := qb.projections ++ [(label, .list (initialProj sp))],
              cls_to_label_map := newClsMap qb.cls_to_label_map sp label,
              limit := qb.limit,
              order_by := qb.order_by } := by
  unfold addToPath at h
  split at h
  · exact absurd h (by simp)
  split at h
  · exact absurd h (by simp)
  split at h
  · exact absurd h (by simp)
  next type0 label0 hcls =>
    split at h
    · exact absurd h (by simp)
    next label hlab =>
      split at h
      · exact absurd h (by simp)
      next hfil =>
        split at h
        · exact absurd h (by simp)
        next hproj =>
          split at h
          · exact absurd h (by simp)
          next fd2 hinj =>
            split at h
            · exact absurd h (by simp)
            next kw jv hedge =>
              refine ⟨type0, label0, label, fd2, kw, jv, hcls, hlab, hfil,
                hproj, hinj, hedge, ?_⟩
              exact (Except.ok.injEq _ _).mp h.symm

/-! ## Claim theorems -/

/-- C1 (amended): for every vertex accepted by `_add_to_path` whose
discriminator yields a non-empty `_plugin_type_spec` (the type string
stripped of dots with its *last* dot-separated segment removed), the vertex's
filter set maps `type` to `{"like": "<spec>%"}`.  The pattern uses this
truncated spec, not the full discriminator string. -/
theorem qb_C1_typeFilter (qb : QB) (sp : PathSpec) (qb' : QB) (e : PathEntry)
    (h : addToPath qb sp = .ok qb')
    (he : pyLast qb'.path = some e)
    (hp : typeSpec e.type ≠ "") :
    (alookup qb'.filters e.label).bind (fun fd => alookup fd "type")
      = some (.like (typeSpec e.type ++ "%")) := by
  obtain ⟨type0, label0, label, fd2, kw, jv, hcls, hlab, hfil, hproj, hinj,
    hedge, hqb'⟩ := addToPath_ok h
  subst hqb'
  rw [pyLast_append_one] at he
  obtain rfl : (⟨type0, label, kw, jv⟩ : PathEntry) = e := by
    injection he
  simp only at hp ⊢
  have hfd2 : fd2 = aupdate1 (initialFd sp) "type"
      (.like (typeSpec type0 ++ "%")) := by
    unfold injectTypeFilter at hinj
    split at hinj
    · next hct =>
      exfalso
      rcases hct with hc | hg
      · exact hp (by rw [hc]; decide)
      · exact hp (by rw [hg]; decide)
    · rw [if_pos hp] at hinj
      injection hinj with h2
      exact h2.symm
  rw [alookup_append_right _ hfil]
  have hone : alookup [(label, fd2)] label = some fd2 := by
    simp [alookup]
  rw [hone]
  show alookup fd2 "type" = some (.like (typeSpec type0 ++ "%"))
  rw [hfd2]
  exact aupdate1_lookup_self _ _ _

/-- C5 (amended): an edge-keyword target given as a class resolves through
`cls_to_label_map`, which keeps only the *first* vertex bound to each class;
a class bound to two vertices therefore resolves silently to the first
vertex's label, and no error is raised. -/
theorem qb_C5_firstBinding (qb : QB) (sp : PathSpec) (qb' : QB) (kw : String)
    (c : PyClass) (lbl : String)
    (h : addToPath qb sp = .ok qb')
    (hkw : kw ∈ validJoinKeys)
    (hedge : sp.edges = [(kw, JoinVal.cls c)])
    (hfirst : alookup qb.cls_to_label_map c = some lbl) :
    alookup qb'.cls_to_label_map c = some lbl ∧
    (pyLast qb'.path).map (fun e => e.joinVal) = some (JoinVal.str lbl) := by
  obtain ⟨type0, label0, label, fd2, kw', jv, hcls, hlab, hfil, hproj, hinj,
    hres, hqb'⟩ := addToPath_ok h
  have hmap : alookup (newClsMap qb.cls_to_label_map sp label) c = some lbl := by
    unfold newClsMap
    split
    · split
      · exact hfirst
      · exact alookup_append_left _ hfirst
    · exact hfirst
  rw [hedge] at hres
  simp only [resolveEdges, hkw, hmap] at hres
  rw [if_neg (by simp [hkw])] at hres
  simp only [Option.isSome_none, Bool.false_eq_true, if_false] at hres
  injection hres with hres
  rw [Prod.mk.injEq] at hres
  obtain ⟨rfl, rfl⟩ := hres
  subst hqb'
  refine ⟨hmap, ?_⟩
  rw [pyLast_append_one]
  rfl

/-- C7 (amended): the chained mutation operations (`inputs`, `outputs`,
`children`, `parents` — all instances of `chainOp`) do *not* reset the
memoised handle: after a successful chain call the cached `que` is unchanged,
and `get_query` keeps returning the stale handle on the unmodified builder
state. -/
theorem qb_C7_staleCache (kw : String) (cls : PyClass) (m m' : QBM)
    (q : BuiltQuery)
    (h : chainOp kw m cls = .ok m') (hq : m.que = some q) :
    m'.que = some q ∧ getQuery m' = .ok (q, m') := by
  unfold chainOp at h
  split at h
  · exact absurd h (by simp)
  split at h
  · exact absurd h (by simp)
  obtain rfl : ({ m with qb := _ } : QBM) = m' := by
    injection h
  refine ⟨hq, ?_⟩
  unfold getQuery
  rw [show ({ m with qb := _ } : QBM).que = m.que from rfl, hq]

/-- C4: a vertex whose stored edge keyword is `output_of` (resp. `input_of`)
with a label target is joined through a fresh alias of the node-link table
with predicates `link.input_id = target.id` and
`link.output_id = alias[i].id` (resp. the two link columns swapped). -/
theorem qb_C4_linkJoin (qb : QB) (i t : Nat) (e : PathEntry) (lbl kw : String)
    (hi : qb.path[i]? = some e)
    (hkw : kw = "output_of" ∨ kw = "input_of")
    (he : e.joinKw = kw) (hv : e.joinVal = .str lbl)
    (hl : lastIdx qb.label_list lbl = some t)
    (ht : t < qb.path.length) :
    joinStepAt qb i = .ok (if kw = "output_of" then
        [⟨(.link i, .input_id), (.vertex t, .id)⟩,
         ⟨(.link i, .output_id), (.vertex i, .id)⟩]
      else
        [⟨(.link i, .output_id), (.vertex t, .id)⟩,
         ⟨(.link i, .input_id), (.vertex i, .id)⟩]) := by
  have hpy : pyIndex qb.path.length (t : Int) = .ok t := by
    unfold pyIndex
    rw [if_pos (by exact_mod_cast Nat.zero_le t)]
    rw [if_pos (by exact_mod_cast ht)]
    simp
  rcases hkw with rfl | rfl <;>
      simp [joinStepAt, hi, getConnectingNode, he, hv, hl, kwToKind?, hpy,
        applyJoin] <;>
    rfl

/-- Projection-loop helper: after the default `"*"` is written onto the last
label, walking a path whose labels are exactly the (duplicate-free) label
list — all of whose stored projection values are falsy — emits exactly one
projection, `"*"` on the last label. -/
theorem emitProj_after_default (projs : List (String × PyProjVal)) (lbl : String)
    (hall : ∀ p ∈ projs, projEmpty p.2 = true) :
    ∀ (path : List PathEntry) (ll : List String),
      path.map (fun e => e.label) = ll → ll.Nodup → pyLast ll = some lbl →
      emitProjections (aupdate1 projs lbl (.str "*")) path = [(lbl, ["*"])] := by
  intro path
  induction path with
  | nil =>
    intro ll hmap hnd hlast
    rw [← hmap] at hlast
    simp [pyLast] at hlast
  | cons v rest ih =>
    intro ll hmap hnd hlast
    subst hmap
    cases rest with
    | nil =>
      simp only [List.map_cons, List.map_nil] at hlast ⊢
      have hv : v.label = lbl := by
        simpa [pyLast] using hlast
      subst hv
      simp [emitProjections, aupdate1_lookup_self, projEmpty, projList]
    | cons w ws =>
      simp only [List.map_cons] at hlast hnd ⊢
      have hlast' : pyLast (w.label :: ws.map (fun e => e.label)) = some lbl := by
        exact hlast
      have hmem : lbl ∈ w.label :: ws.map (fun e => e.label) :=
        pyLast_mem hlast'
      rw [List.nodup_cons] at hnd
      have hne : v.label ≠ lbl := fun hh => hnd.1 (hh ▸ hmem)
      have hhead : alookup (aupdate1 projs lbl (.str "*")) v.label
          = alookup projs v.label :=
        aupdate1_lookup_ne _ _ _ _ hne
      have htail := ih (w.label :: ws.map (fun e => e.label)) (by simp)
        hnd.2 hlast'
      cases hlook : alookup projs v.label with
      | none =>
        simp only [emitProjections, hhead, hlook]
        exact htail
      | some pv =>
        have hpe : projEmpty pv = true := hall _ (alookup_mem hlook)
        simp only [emitProjections, hhead, hlook, hpe, if_true]
        exact htail

/-- C9: in a built query on a parsed path (path labels equal the label list)
in which every stored projection value is falsy — in particular when no label
has any explicit projection — exactly the last vertex is projected, as `"*"`. -/
theorem qb_C9_defaultProjection (qb : QB) (bq : BuiltQuery) (lbl : String)
    (hall : ∀ p ∈ qb.projections, projEmpty p.2 = true)
    (hpl : qb.path.map (fun e => e.label) = qb.label_list)
    (hb : buildQuery qb = .ok bq)
    (hl : pyLast qb.label_list = some lbl) :
    bq.projected = [(lbl, ["*"])] := by
  unfold buildQuery at hb
  split at hb
  case isFalse => exact absurd hb (by simp)
  case isTrue hnd =>
    split at hb
    · exact absurd hb (by simp)
    split at hb
    · exact absurd hb (by simp)
    split at hb
    case isFalse hfalse =>
      exact absurd (List.all_eq_true.mpr hall) hfalse
    case isTrue =>
      split at hb
      · next hnone => rw [hnone] at hl; exact absurd hl (by simp)
      · next lbl' hsome =>
        rw [hsome] at hl
        injection hl with hl2
        subst hl2
        obtain rfl : _ = bq := by injection hb
        exact emitProj_after_default qb.projections lbl' hall qb.path
          qb.label_list hpl hnd hsome

/-- Extracting the stored limit from a successful parse: `__init__` pops
`limit` with default `False`. -/
theorem qbInit_limit {qh : QueryHelp} {qb : QB} (h : qbInit qh = .ok qb) :
    qb.limit = qh.limit.getD (.boolV false) := by
  unfold qbInit at h
  split at h
  · exact absurd h (by simp)
  split at h
  · exact absurd h (by simp)
  split at h
  · exact absurd h (by simp)
  split at h
  · obtain rfl : _ = qb := by injection h
    rfl
  · exact absurd h (by simp)

/-- C10: a falsy `limit` value in the query-help (absent, `None`, `False` or
`0`) produces a built query with no LIMIT clause at all. -/
theorem qb_C10_falsyLimit (qh : QueryHelp) (qb : QB) (bq : BuiltQuery)
    (hq : qbInit qh = .ok qb)
    (hb : buildQuery qb = .ok bq)
    (hfalsy : qh.limit = none ∨ qh.limit = some .noneV ∨
      qh.limit = some (.boolV false) ∨ qh.limit = some (.intV 0)) :
    bq.limitClause = none := by
  have hlim : limTruthy qb.limit = false := by
    rw [qbInit_limit hq]
    rcases hfalsy with h1 | h1 | h1 | h1 <;> rw [h1] <;> decide
  unfold buildQuery at hb
  split at hb
  case isFalse => exact absurd hb (by simp)
  case isTrue =>
    split at hb
    · exact absurd hb (by simp)
    split at hb
    · exact absurd hb (by simp)
    split at hb
    · split at hb
      · exact absurd hb (by simp)
      · obtain rfl : _ = bq := by injection hb
        simp [hlim]
    · obtain rfl : _ = bq := by injection hb
      simp [hlim]

/-! ## Concrete inputs and witnesses -/

/-- Scenario S1 of the spec: `{"path": ["data.structure."]}`. -/
def S1help : QueryHelp := { path := [PathItem.str "data.structure."] }

/-- C1 counterexample: S1 parses successfully, but the sole vertex's filter
on `type` is `LIKE "data%"` — not the claimed `LIKE "data.structure.%"`. -/
theorem qb_C1_cex :
    (qbInit S1help).map (fun qb =>
      (alookup qb.filters "data.structure.").bind (fun fd => alookup fd "type"))
      = .ok (some (FilterVal.like "data%")) ∧
    FilterVal.like "data%" ≠ FilterVal.like "data.structure.%" := by
  constructor
  · decide
  · decide

def qb1pre : QB := {}

def sp1W : PathSpec := { type := some "data.structure." }

def qb1W : QB :=
  match addToPath qb1pre sp1W with
  | .ok q => q
  | .error _ => {}

def e1W : PathEntry := (pyLast qb1W.path).getD ⟨"", "", "", .int 0⟩

/-- Witness for `qb_C1_typeFilter` at the S1 vertex. -/
theorem qb_C1_witness :
    addToPath qb1pre sp1W = .ok qb1W ∧ pyLast qb1W.path = some e1W ∧
    typeSpec e1W.type ≠ "" ∧
    (alookup qb1W.filters e1W.label).bind (fun fd => alookup fd "type")
      = some (.like (typeSpec e1W.type ++ "%")) :=
  ⟨by decide, by decide, by decide,
   qb_C1_typeFilter qb1pre sp1W qb1W e1W (by decide) (by decide) (by decide)⟩

/-- `{"path": [{"type": "a.b."}]}`, whose `get_dict()` output is re-parsed. -/
def qh2B : QueryHelp := { path := [PathItem.str "a.b."] }

/-- `QueryBuilder(builder.get_dict())`: parse, serialise, parse again. -/
def reparse (qh : QueryHelp) : Except QBErr QB :=
  match qbInit qh with
  | .ok qb => qbInit (getDictQH qb)
  | .error e => .error e

/-- C2: round-tripping fails on the code.  The first parse succeeds and
stores the default edge `"direction": 1` in `self.path`; re-parsing the
`get_dict()` output sends that integer through the edge-keyword validation of
`_add_to_path`, which only accepts labels and classes, so the second parse
raises `InputValidationError` instead of reproducing the builder. -/
theorem qb_C2_reparseFails :
    (qbInit qh2B).toOption.isSome = true ∧
    reparse qh2B = .error (.inputValidation
      "You told me to join, but it is not among my labels") := by
  constructor
  · decide
  · decide

def CalcCls : PyClass := ⟨"JobCalculation", .node, "calculation.job.JobCalculation."⟩

def TrajCls : PyClass := ⟨"TrajectoryData", .node, "data.array.trajectory.TrajectoryData."⟩

def ParamCls : PyClass := ⟨"ParameterData", .node, "data.parameter.ParameterData."⟩

def StructCls : PyClass := ⟨"StructureData", .node, "data.structure.StructureData."⟩

/-- The `qh1` example of the source docstring: a three-vertex path whose last
vertex carries `"direction": -2`. -/
def qh3B : QueryHelp := { path := [
  PathItem.cls CalcCls, PathItem.cls TrajCls,
  PathItem.spec { cls := some ParamCls, edges := [("direction", JoinVal.int (-2))] } ] }

/-- C3: an explicit `direction` edge never reaches the resolver.  The
keyword-value validation of `_add_to_path` accepts only known labels and
classes, so the integer `-2` raises `InputValidationError` during parse —
although the module docstring presents exactly this query-help as valid and
equivalent to the `input_of` form. -/
theorem qb_C3_directionRejected :
    qbInit qh3B = .error (.inputValidation
      "You told me to join, but it is not among my labels") := by
  decide

/-- Scenario S2-style input with an explicit `output_of` label target. -/
def qh4W : QueryHelp := { path := [
  PathItem.spec { type := some "a.b.", label := some "a" },
  PathItem.spec { type := some "c.d.", edges := [("output_of", JoinVal.str "a")] } ] }

def qb4W : QB :=
  match qbInit qh4W with
  | .ok q => q
  | .error _ => {}

def e4W : PathEntry := (qb4W.path[1]?).getD ⟨"", "", "", .int 0⟩

/-- Witness for `qb_C4_linkJoin` on the two-vertex `output_of` path. -/
theorem qb_C4_witness :
    qb4W.path[1]? = some e4W ∧ e4W.joinKw = "output_of" ∧
    e4W.joinVal = .str "a" ∧ lastIdx qb4W.label_list "a" = some 0 ∧
    0 < qb4W.path.length ∧
    joinStepAt qb4W 1 = .ok
      [⟨(.link 1, .input_id), (.vertex 0, .id)⟩,
       ⟨(.link 1, .output_id), (.vertex 1, .id)⟩] :=
  ⟨by decide, by decide, by decide, by decide, by decide,
   qb_C4_linkJoin qb4W 1 0 e4W "a" "output_of" (by decide) (Or.inl rfl)
     (by decide) (by decide) (by decide) (by decide)⟩

/-- A path binding `StructCls` to two vertices, with a third vertex
targeting the ambiguous class. -/
def qh5B : QueryHelp := { path := [
  PathItem.spec { cls := some StructCls, label := some "s1" },
  PathItem.spec { cls := some StructCls, label := some "s2" },
  PathItem.spec { cls := some CalcCls,
                  edges := [("output_of", JoinVal.cls StructCls)] } ] }

/-- C5 counterexample: the ambiguous class raises no error — the query-help
is accepted and the target resolves silently to the first binding `"s1"`. -/
theorem qb_C5_cex :
    (qbInit qh5B).map (fun qb =>
      (qb.path[2]?).map (fun e => (e.joinKw, e.joinVal)))
      = .ok (some ("output_of", JoinVal.str "s1")) := by
  decide

def qh5pre : QueryHelp := { path := [
  PathItem.spec { cls := some StructCls, label := some "s1" },
  PathItem.spec { cls := some StructCls, label := some "s2" } ] }

def qb5pre : QB :=
  match qbInit qh5pre with
  | .ok q => q
  | .error _ => {}

def sp5W : PathSpec :=
  { cls := some CalcCls, edges := [("output_of", JoinVal.cls StructCls)] }

def qb5W : QB :=
  match addToPath qb5pre sp5W with
  | .ok q => q
  | .error _ => {}

/-- Witness for `qb_C5_firstBinding` on the doubly-bound class. -/
theorem qb_C5_witness :
    addToPath qb5pre sp5W = .ok qb5W ∧
    "output_of" ∈ validJoinKeys ∧
    alookup qb5pre.cls_to_label_map StructCls = some "s1" ∧
    (alookup qb5W.cls_to_label_map StructCls = some "s1" ∧
     (pyLast qb5W.path).map (fun e => e.joinVal) = some (JoinVal.str "s1")) :=
  ⟨by decide, by decide, by decide,
   qb_C5_firstBinding qb5pre sp5W qb5W "output_of" StructCls "s1" (by decide)
     (by decide) (by decide) (by decide)⟩

/-- A second vertex targeting the first by its zero-based integer index. -/
def qh6B : QueryHelp := { path := [
  PathItem.str "a.b.",
  PathItem.spec { type := some "c.d.", edges := [("output_of", JoinVal.int 0)] } ] }

/-- C6: an integer edge target `0 < 1` is *not* accepted: the keyword-value
validation of `_add_to_path` only admits labels and classes, so the parse
raises `InputValidationError` — although the module docstring documents
`edge_specification["output_of"] = 2` as valid and the downstream resolver
(`_get_connecting_node`) has an `isinstance(val, int)` branch for it. -/
theorem qb_C6_intTargetRejected :
    qbInit qh6B = .error (.inputValidation
      "You told me to join, but it is not among my labels") := by
  decide

/-- Single-vertex query-help for the cache experiment. -/
def qh7B : QueryHelp := { path := [PathItem.str "a.b."] }

/-- Build once, chain `inputs`, read the handle again, and also rebuild from
scratch: returns `(first handle, handle after inputs, fresh rebuild)`. -/
def c7chain : Except QBErr (BuiltQuery × BuiltQuery × BuiltQuery) :=
  match qbInit qh7B with
  | .error e => .error e
  | .ok qb0 =>
    match getQuery { qb := qb0 } with
    | .error e => .error e
    | .ok (q1, m1) =>
      match chainOp "input_of" m1 with
      | .error e => .error e
      | .ok m2 =>
        match getQuery m2 with
        | .error e => .error e
        | .ok (q2, _) =>
          match buildQuery m2.qb with
          | .error e => .error e
          | .ok qf => .ok (q1, q2, qf)

/-- The observable outcome of `c7chain`: the post-mutation handle equals the
stale cached handle and differs from the fresh rebuild. -/
def c7stale : Bool :=
  match c7chain with
  | .ok (q1, q2, qf) => decide (q2 = q1) && decide (¬ qf = q1)
  | .error _ => false

/-- C7 counterexample: after the handle is materialised once, `inputs()`
appends a vertex but get_query still returns the cached one-vertex handle,
which differs from the two-vertex query a fresh build produces. -/
theorem qb_C7_cex : c7stale = true := by
  decide

def qb7W : QB :=
  match qbInit qh7B with
  | .ok q => q
  | .error _ => {}

def q7W : BuiltQuery :=
  match buildQuery qb7W with
  | .ok b => b
  | .error _ => ⟨[], [], none⟩

def m7W : QBM := { qb := qb7W, que := some q7W }

def m7W' : QBM :=
  match chainOp "input_of" m7W nodeBaseCls with
  | .ok m => m
  | .error _ => m7W

/-- Witness for `qb_C7_staleCache` on the one-vertex builder. -/
theorem qb_C7_witness :
    chainOp "input_of" m7W nodeBaseCls = .ok m7W' ∧ m7W.que = some q7W ∧
    (m7W'.que = some q7W ∧ getQuery m7W' = .ok (q7W, m7W')) :=
  ⟨by decide, by decide,
   qb_C7_staleCache "input_of" nodeBaseCls m7W m7W' q7W (by decide) (by decide)⟩

/-- Two vertices with the same explicit label. -/
def qh8B : QueryHelp := { path := [
  PathItem.spec { type := some "a.b.", label := some "x" },
  PathItem.spec { type := some "c.d.", label := some "x" } ] }

/-- C8: a duplicate *explicit* label is not caught by the validation path
(`label = label` is taken verbatim with no membership check); it instead
trips the internal `assert label not in self.filters`, so the parse dies with
an `AssertionError` rather than an `InputValidationError`. -/
theorem qb_C8_assertNotValidation :
    qbInit qh8B = .error (.assertViolation
      "Why is label already a key in filters?") := by
  decide

/-- Two bare type-string vertices, no projection anywhere. -/
def qh9W : QueryHelp := { path := [PathItem.str "a.b.", PathItem.str "c.d."] }

def qb9W : QB :=
  match qbInit qh9W with
  | .ok q => q
  | .error _ => {}

def bq9W : BuiltQuery :=
  match buildQuery qb9W with
  | .ok b => b
  | .error _ => ⟨[], [], none⟩

/-- Witness for `qb_C9_defaultProjection` on the two-vertex path. -/
theorem qb_C9_witness :
    (∀ p ∈ qb9W.projections, projEmpty p.2 = true) ∧
    buildQuery qb9W = .ok bq9W ∧ bq9W.projected = [("c.d.", ["*"])] :=
  ⟨by decide, by decide,
   qb_C9_defaultProjection qb9W bq9W "c.d." (by decide) (by decide) (by decide)
     (by decide)⟩

/-- A query-help with `limit = 0`. -/
def qh10W : QueryHelp := { path := [PathItem.str "a.b."],
                           limit := some (LimitV.intV 0) }

def qb10W : QB :=
  match qbInit qh10W with
  | .ok q => q
  | .error _ => {}

def bq10W : BuiltQuery :=
  match buildQuery qb10W with
  | .ok b => b
  | .error _ => ⟨[], [], none⟩

/-- Witness for `qb_C10_falsyLimit` at `limit = 0`. -/
theorem qb_C10_witness :
    qbInit qh10W = .ok qb10W ∧ buildQuery qb10W = .ok bq10W ∧
    bq10W.limitClause = none :=
  ⟨by decide, by decide,
   qb_C10_falsyLimit qh10W qb10W bq10W (by decide) (by decide)
     (Or.inr (Or.inr (Or.inr rfl)))⟩
